import Mathlib

/-!
Shallow embedding of the build scripts of this repository
(`build-standalone.py` and `generate-token.py`).

The central piece of `build-standalone.py` is a sequence of four
`re.sub` calls (all with `re.IGNORECASE`) followed by a `re.search`
based insertion of a build-provenance comment.  The regular
expressions used by the script are fixed concatenations of literals,
single-character classes (`["\']`) and greedy negated/positive
character-class stars (`[^>]*`, `[^"\']*`, `\s*`), so we embed exactly
that fragment: a pattern is a list of atoms, and matching is the
standard greedy backtracking procedure (longest star extent first),
which coincides with Python's leftmost-match semantics for these
patterns.  `re.sub` is modelled as the leftmost, non-overlapping
rewrite that continues scanning after the end of each match; all
patterns here begin with a nonempty literal so no empty match can
occur.  `re.IGNORECASE` is modelled by ASCII case folding (all
patterns and anchors in the script are ASCII).
-/

/-- ASCII lower-casing of one character (model of `re.IGNORECASE` folding). -/
def lowerC (c : Char) : Char :=
  if 65 ≤ c.toNat ∧ c.toNat ≤ 90 then Char.ofNat (c.toNat + 32) else c

/-- Case-insensitive character comparison. -/
def lowEq (p c : Char) : Bool :=
  lowerC p == lowerC c

/-- Case-insensitive "is `p` a prefix of `s`". -/
def isPrefixCI : List Char → List Char → Bool
  | [], _ => true
  | _ :: _, [] => false
  | p :: ps, c :: cs => lowEq p c && isPrefixCI ps cs

/-- One atom of the regex fragment used by `build-standalone.py`:
a literal (matched case-insensitively), a single-character class, or a
greedy star over a character class. -/
inductive Atom where
  | lit : List Char → Atom
  | cls : (Char → Bool) → Atom
  | star : (Char → Bool) → Atom

/-- Length of the longest prefix of `s` all of whose characters satisfy `p`
(the maximal extent a greedy star can take). -/
def leadCount (p : Char → Bool) : List Char → Nat
  | [] => 0
  | c :: s => if p c then leadCount p s + 1 else 0

/-- Backtracking loop of a greedy star: try extents `k, k-1, …, 0`,
continuing with the rest of the pattern (`f`) after each candidate extent. -/
def tryStar (f : List Char → Option Nat) (s : List Char) : Nat → Option Nat
  | 0 => f s
  | k+1 =>
    match f (List.drop (k+1) s) with
    | some n => some (k+1+n)
    | none => tryStar f s k

/-- `matchAtoms pat s` returns `some n` iff the pattern matches a prefix of
`s` of length `n`, with the usual greedy backtracking order (so `n` is the
length Python's engine would match at this position). -/
def matchAtoms : List Atom → List Char → Option Nat :=
  List.rec (motive := fun _ => List Char → Option Nat)
    (fun _ => some 0)
    (fun atom _rest ih => fun s =>
      match atom with
      | .lit l =>
        if isPrefixCI l s then (ih (List.drop l.length s)).map (fun n => n + l.length) else none
      | .cls p =>
        match s with
        | [] => none
        | c :: s2 => if p c then (ih s2).map (fun n => n + 1) else none
      | .star p => tryStar ih s (leadCount p s))

/-- Leftmost non-overlapping rewriting, the model of `re.sub`:
the `Nat` argument is the number of characters still to copy verbatim
because they were consumed by the previous match.  At skip count `0` it
tries the pattern at the current position; on a match of length `n+1` it
emits the replacement and skips the matched characters, otherwise it
copies one character and moves on. -/
def subAllAux (pat : List Atom) (repl : List Char) : Nat → List Char → List Char
  | 0, [] => []
  | 0, c :: s =>
    match matchAtoms pat (c :: s) with
    | some (n+1) => repl ++ subAllAux pat repl n s
    | _ => c :: subAllAux pat repl 0 s
  | _+1, [] => []
  | k+1, _ :: s => subAllAux pat repl k s

/-- `re.sub(pat, repl, s)` for the constant replacements used by the script. -/
def subAll (pat : List Atom) (repl : List Char) (s : List Char) : List Char :=
  subAllAux pat repl 0 s

/-- `re.search(pat, s) is not None`, i.e. some position of `s` starts a match. -/
def hasMatch (pat : List Atom) : List Char → Bool
  | [] => false
  | c :: s => (matchAtoms pat (c :: s)).isSome || hasMatch pat s

/-- The two quote characters of the class `["\']`. -/
def quoteChars : List Char := "\"'".toList

/-- Python `\s` (ASCII part; every character of the script's data is ASCII). -/
def isSpaceB (c : Char) : Bool :=
  c == ' ' || c == '\t' || c == '\n' || c == '\r' || c == '\x0B' || c == '\x0C'

/-- `alpine_pattern`:
`<script[^>]*src=["\']https://unpkg\.com/alpinejs@[^"\']*["\'][^>]*defer[^>]*></script>`. -/
def alpine_pattern : List Atom :=
  [ .lit ('<' :: "script".toList),
    .star (fun c => c != '>'),
    .lit "src=".toList,
    .cls (fun c => quoteChars.contains c),
    .lit "https://unpkg.com/alpinejs@".toList,
    .star (fun c => !(quoteChars.contains c)),
    .cls (fun c => quoteChars.contains c),
    .star (fun c => c != '>'),
    .lit "defer".toList,
    .star (fun c => c != '>'),
    .lit "></script>".toList ]

/-- `tailwind_pattern`:
`<script[^>]*src=["\']https://cdn\.tailwindcss\.com[^"\']*["\'][^>]*></script>`. -/
def tailwind_pattern : List Atom :=
  [ .lit ('<' :: "script".toList),
    .star (fun c => c != '>'),
    .lit "src=".toList,
    .cls (fun c => quoteChars.contains c),
    .lit "https://cdn.tailwindcss.com".toList,
    .star (fun c => !(quoteChars.contains c)),
    .cls (fun c => quoteChars.contains c),
    .star (fun c => c != '>'),
    .lit "></script>".toList ]

/-- The leftover-comment pattern `<!--\s*Alpine\s*-->`. -/
def alpine_comment_pattern : List Atom :=
  [ .lit ('<' :: "!--".toList),
    .star isSpaceB,
    .lit "Alpine".toList,
    .star isSpaceB,
    .lit "-->".toList ]

/-- The closing-body pattern `</body>`. -/
def body_pattern : List Atom :=
  [ .lit ('<' :: "/body>".toList) ]

/-- `alpine_replacement = f'\n<script>\n{alpine_js}\n</script>\n'`. -/
def alpine_replacement (alpine_js : List Char) : List Char :=
  "\n<script>\n".toList ++ alpine_js ++ "\n</script>\n".toList

/-- The constant the `</body>` lambda returns: `alpine_replacement + '</body>'`. -/
def body_replacement (alpine_js : List Char) : List Char :=
  alpine_replacement alpine_js ++ "</body>".toList

/-- `tailwind_replacement = f'<script>\n{tailwind_js_str}\n</script>'`. -/
def tailwind_replacement (tailwind_js : List Char) : List Char :=
  "<script>\n".toList ++ tailwind_js ++ "\n</script>".toList

/-- The four `re.sub` steps of `main` (lines 59-72 of `build-standalone.py`),
in the implemented order: remove the Alpine CDN tag, remove the leftover
Alpine comment, insert the Alpine payload before `</body>`, then replace
the Tailwind CDN tag in place. -/
def assemble (alpine_js tailwind_js content : List Char) : List Char :=
  subAll tailwind_pattern (tailwind_replacement tailwind_js)
    (subAll body_pattern (body_replacement alpine_js)
      (subAll alpine_comment_pattern []
        (subAll alpine_pattern [] content)))

/-- The same four steps with the Tailwind (payload A) in-place replacement
performed first instead of last. -/
def assembleSwapped (alpine_js tailwind_js content : List Char) : List Char :=
  subAll body_pattern (body_replacement alpine_js)
    (subAll alpine_comment_pattern []
      (subAll alpine_pattern [] (subAll tailwind_pattern (tailwind_replacement tailwind_js) content)))

/-- The Alpine-only (payload B) part of the transform: tag removal, comment
removal and `</body>` insertion, with no Tailwind substitution and no
provenance block. -/
def assembleAlpineOnly (alpine_js content : List Char) : List Char :=
  subAll body_pattern (body_replacement alpine_js)
    (subAll alpine_comment_pattern []
      (subAll alpine_pattern [] content))

/-- The lazy scan of `re.search(r'^(.*?)(<!DOCTYPE|<html)', content, I|S)`:
returns the text before the earliest root-markup declaration and the text
from it on. -/
def findDecl : List Char → Option (List Char × List Char)
  | [] => none
  | c :: s =>
    if isPrefixCI ('<' :: "!DOCTYPE".toList) (c :: s) || isPrefixCI ('<' :: "html".toList) (c :: s) then
      some ([], c :: s)
    else (findDecl s).map (fun pr => (c :: pr.1, pr.2))

/-- Lines 86-89 of `build-standalone.py`: insert the provenance block
before the root markup declaration if one is found, otherwise leave the
document unchanged. -/
def insertBuildInfo (info content : List Char) : List Char :=
  match findDecl content with
  | none => content
  | some pr => pr.1 ++ info ++ pr.2

/-- Text of the provenance block before the timestamp. -/
def buildInfoPre : List Char := "<!--\n * Built: ".toList

/-- Text of the provenance block after the timestamp. -/
def buildInfoPost : List Char :=
  ("\n * Source: phpinfo-insight-dashboard.php\n * Alpine.js: Embedded inline\n"
    ++ " * Tailwind CSS: Embedded inline (v4 JavaScript)\n -->\n").toList

/-- The `build_info` comment of lines 78-84, as a function of the
formatted timestamp. -/
def build_info (ts : List Char) : List Char :=
  buildInfoPre ++ ts ++ buildInfoPost

/-- Whether a root-markup declaration (`<!DOCTYPE` or `<html`,
case-insensitively) starts at position `i` of `s`. -/
def declAt (s : List Char) (i : Nat) : Bool :=
  isPrefixCI ('<' :: "!DOCTYPE".toList) (List.drop i s)
    || isPrefixCI ('<' :: "html".toList) (List.drop i s)

/-!
Model of the effectful skeleton of `build-standalone.py`'s `main`
(file existence check, the two downloads, the assembly and the single
output write), and of `generate-token.py`.  Network fetches are inputs
of the model: `none` stands for a transport error (`URLError`, which
`download_file` catches), `some bytes` for a successful response body.
An uncaught Python exception (`UnicodeDecodeError` from a non-UTF-8
body) terminates the interpreter with exit status 1 and nothing
written; it is modelled as `Except.error`.
-/

/-- Result of a Python UTF-8 `bytes.decode('utf-8')`: `none` models
`UnicodeDecodeError` (invalid start byte, truncated sequence, overlong
form, surrogate, or out-of-range code point). -/
def utf8Decode : List Nat → Option (List Char)
  | [] => some []
  | b :: bs =>
    if b ≤ 127 then (utf8Decode bs).map (fun cs => Char.ofNat b :: cs)
    else if b ≤ 193 then none
    else if b ≤ 223 then
      match bs with
      | b2 :: bs2 =>
        if 128 ≤ b2 ∧ b2 ≤ 191 then
          (utf8Decode bs2).map (fun cs => Char.ofNat ((b - 192) * 64 + (b2 - 128)) :: cs)
        else none
      | [] => none
    else if b ≤ 239 then
      match bs with
      | b2 :: b3 :: bs3 =>
        if (if b = 224 then 160 ≤ b2 ∧ b2 ≤ 191
            else if b = 237 then 128 ≤ b2 ∧ b2 ≤ 159
            else 128 ≤ b2 ∧ b2 ≤ 191) ∧ (128 ≤ b3 ∧ b3 ≤ 191) then
          (utf8Decode bs3).map (fun cs =>
            Char.ofNat ((b - 224) * 4096 + (b2 - 128) * 64 + (b3 - 128)) :: cs)
        else none
      | _ => none
    else if b ≤ 244 then
      match bs with
      | b2 :: b3 :: b4 :: bs4 =>
        if (if b = 240 then 144 ≤ b2 ∧ b2 ≤ 191
            else if b = 244 then 128 ≤ b2 ∧ b2 ≤ 143
            else 128 ≤ b2 ∧ b2 ≤ 191) ∧ (128 ≤ b3 ∧ b3 ≤ 191) ∧ (128 ≤ b4 ∧ b4 ≤ 191) then
          (utf8Decode bs4).map (fun cs =>
            Char.ofNat ((b - 240) * 262144 + (b2 - 128) * 4096 + (b3 - 128) * 64 + (b4 - 128)) :: cs)
        else none
      | _ => none
    else none

/-- UTF-8 encoding of one character (Python `str.encode('utf-8')`). -/
def utf8EncodeChar (c : Char) : List Nat :=
  let n := c.toNat
  if n < 128 then [n]
  else if n < 2048 then [192 + n / 64, 128 + n % 64]
  else if n < 65536 then [224 + n / 4096, 128 + n / 64 % 64, 128 + n % 64]
  else [240 + n / 262144, 128 + n / 4096 % 64, 128 + n / 64 % 64, 128 + n % 64]

/-- UTF-8 encoding of a string. -/
def utf8Encode (s : List Char) : List Nat :=
  s.flatMap utf8EncodeChar

/-- A value returned by `download_file`: the raw bytes, or the UTF-8 text
when the description selects the decoding branch. -/
inductive Payload where
  | bytes : List Nat → Payload
  | text : List Char → Payload

/-- Case-sensitive substring test (Python `in` on strings). -/
def containsSub (needle : List Char) : List Char → Bool
  | [] => needle.isPrefixOf []
  | c :: s => needle.isPrefixOf (c :: s) || containsSub needle s

/-- Line 23 of `build-standalone.py`: decode as UTF-8 when the description
ends with `.js` or contains `tailwind`/`alpine` case-insensitively. -/
def descWantsText (desc : List Char) : Bool :=
  ".js".toList.isSuffixOf desc
    || containsSub "tailwind".toList (desc.map lowerC)
    || containsSub "alpine".toList (desc.map lowerC)

/-- `download_file(url, description)` as a function of the transport
outcome: a `URLError` (`none`) is caught and becomes the `None` sentinel
(`Except.ok none`); a body that fails UTF-8 decoding raises an uncaught
`UnicodeDecodeError` (`Except.error`). -/
def download_file (desc : List Char) (fetched : Option (List Nat)) : Except Unit (Option Payload) :=
  match fetched with
  | none => Except.ok none
  | some content =>
    if descWantsText desc then
      match utf8Decode content with
      | none => Except.error ()
      | some t => Except.ok (some (Payload.text t))
    else Except.ok (some (Payload.bytes content))

/-- Line 70 of `build-standalone.py`:
`tailwind_js.decode("utf-8") if isinstance(tailwind_js, bytes) else tailwind_js`. -/
def tailwindToStr : Payload → Except Unit (List Char)
  | Payload.text t => Except.ok t
  | Payload.bytes bs =>
    match utf8Decode bs with
    | none => Except.error ()
    | some t => Except.ok t

/-- Direct use of the Alpine payload in the f-string of line 65.  For the
label `'Alpine.js'` the payload is always `text` (the label ends in `.js`),
so the `bytes` arm is unreachable. -/
def payloadStr : Payload → List Char
  | Payload.text t => t
  | Payload.bytes _ => []

/-- Inputs of one run of `build-standalone.py`: whether the source template
exists, its content, and the transport outcome of the two fetches. -/
structure BuildEnv where
  sourceExists : Bool
  source : List Char
  tailwindFetch : Option (List Nat)
  alpineFetch : Option (List Nat)

/-- Observable outcome of one run: the exit status, how many downloads
were attempted, and the content written to the output file (if any). -/
structure BuildRun where
  exitCode : Nat
  downloads : Nat
  written : Option (List Char)
deriving DecidableEq

/-- `main()` of `build-standalone.py` (lines 30-102): missing template is
fatal before any download; a `None` sentinel from either download aborts
with status 1 and no write; otherwise the assembled, provenance-stamped
document is written and the run exits 0. -/
def mainRun (env : BuildEnv) (ts : List Char) : BuildRun :=
  if env.sourceExists = false then ⟨1, 0, none⟩
  else
    match download_file "Tailwind CSS".toList env.tailwindFetch with
    | Except.error _ => ⟨1, 1, none⟩
    | Except.ok none => ⟨1, 1, none⟩
    | Except.ok (some tw) =>
      match download_file "Alpine.js".toList env.alpineFetch with
      | Except.error _ => ⟨1, 2, none⟩
      | Except.ok none => ⟨1, 2, none⟩
      | Except.ok (some al) =>
        match tailwindToStr tw with
        | Except.error _ => ⟨1, 2, none⟩
        | Except.ok twT =>
          ⟨0, 2, some (insertBuildInfo (build_info ts) (assemble (payloadStr al) twT env.source))⟩

/-!  Model of `generate-token.py`. -/

/-- The full whitespace set of Python `str.strip()` / `str.isspace()`
(`Py_UNICODE_ISSPACE`): `U+0009`-`U+000D`, `U+001C`-`U+0020`, `U+0085`,
`U+00A0`, `U+1680`, `U+2000`-`U+200A`, `U+2028`, `U+2029`, `U+202F`,
`U+205F`, `U+3000`. -/
def isPySpace (c : Char) : Bool :=
  decide ((9 ≤ c.toNat ∧ c.toNat ≤ 13) ∨ (28 ≤ c.toNat ∧ c.toNat ≤ 32)
    ∨ c.toNat = 133 ∨ c.toNat = 160 ∨ c.toNat = 5760
    ∨ (8192 ≤ c.toNat ∧ c.toNat ≤ 8202) ∨ c.toNat = 8232 ∨ c.toNat = 8233
    ∨ c.toNat = 8239 ∨ c.toNat = 8287 ∨ c.toNat = 12288)

/-- Python `str.strip()`: remove leading and trailing whitespace. -/
def pythonStrip (s : List Char) : List Char :=
  ((s.dropWhile isPySpace).reverse.dropWhile isPySpace).reverse

/-- Keep a 32-bit word in range. -/
def m32 (w : Nat) : Nat := w % 4294967296

/-- 32-bit rotate right. -/
def rotr32 (n w : Nat) : Nat := w / 2 ^ n + (w % 2 ^ n) * 2 ^ (32 - n)

/-- SHA-256 big sigma 0. -/
def bsig0 (x : Nat) : Nat := rotr32 2 x ^^^ rotr32 13 x ^^^ rotr32 22 x

/-- SHA-256 big sigma 1. -/
def bsig1 (x : Nat) : Nat := rotr32 6 x ^^^ rotr32 11 x ^^^ rotr32 25 x

/-- SHA-256 small sigma 0. -/
def ssig0 (x : Nat) : Nat := rotr32 7 x ^^^ rotr32 18 x ^^^ x / 8

/-- SHA-256 small sigma 1. -/
def ssig1 (x : Nat) : Nat := rotr32 17 x ^^^ rotr32 19 x ^^^ x / 1024

/-- SHA-256 choose. -/
def chF (e f g : Nat) : Nat := (e &&& f) ^^^ ((e ^^^ 4294967295) &&& g)

/-- SHA-256 majority. -/
def majF (a b c : Nat) : Nat := (a &&& b) ^^^ (a &&& c) ^^^ (b &&& c)

/-- SHA-256 round constants (decimal). -/
def K256 : List Nat :=
  [1116352408, 1899447441, 3049323471, 3921009573, 961987163,
   1508970993, 2453635748, 2870763221, 3624381080, 310598401,
   607225278, 1426881987, 1925078388, 2162078206, 2614888103,
   3248222580, 3835390401, 4022224774, 264347078, 604807628,
   770255983, 1249150122, 1555081692, 1996064986, 2554220882,
   2821834349, 2952996808, 3210313671, 3336571891, 3584528711,
   113926993, 338241895, 666307205, 773529912, 1294757372,
   1396182291, 1695183700, 1986661051, 2177026350, 2456956037,
   2730485921, 2820302411, 3259730800, 3345764771, 3516065817,
   3600352804, 4094571909, 275423344, 430227734, 506948616,
   659060556, 883997877, 958139571, 1322822218, 1537002063,
   1747873779, 1955562222, 2024104815, 2227730452, 2361852424,
   2428436474, 2756734187, 3204031479, 3329325298]

/-- The eight working variables of SHA-256. -/
structure H8 where
  a : Nat
  b : Nat
  c : Nat
  d : Nat
  e : Nat
  f : Nat
  g : Nat
  h : Nat

/-- One SHA-256 round; `kw` is the round constant plus schedule word. -/
def roundStep (st : H8) (kw : Nat) : H8 :=
  let t1 := st.h + bsig1 st.e + chF st.e st.f st.g + kw
  let t2 := bsig0 st.a + majF st.a st.b st.c
  ⟨m32 (t1 + t2), st.a, st.b, st.c, m32 (st.d + t1), st.e, st.f, st.g⟩

/-- Big-endian 32-bit words from a 64-byte block. -/
def toWords : List Nat → List Nat
  | b0 :: b1 :: b2 :: b3 :: rest => (b0 * 16777216 + b1 * 65536 + b2 * 256 + b3) :: toWords rest
  | _ => []

/-- Extend the 16-word schedule by `n` more words. -/
def extendW : List Nat → Nat → List Nat
  | ws, 0 => ws
  | ws, n+1 =>
    extendW
      (ws ++ [m32 (ssig1 (ws.getD (ws.length - 2) 0) + ws.getD (ws.length - 7) 0
        + ssig0 (ws.getD (ws.length - 15) 0) + ws.getD (ws.length - 16) 0)]) n

/-- SHA-256 compression of one 64-byte block. -/
def compress (st : H8) (block : List Nat) : H8 :=
  let ws := extendW (toWords block) 48
  let fin := (List.zipWith (fun k w => m32 (k + w)) K256 ws).foldl roundStep st
  ⟨m32 (st.a + fin.a), m32 (st.b + fin.b), m32 (st.c + fin.c), m32 (st.d + fin.d),
   m32 (st.e + fin.e), m32 (st.f + fin.f), m32 (st.g + fin.g), m32 (st.h + fin.h)⟩

/-- Big-endian length field of the SHA-256 padding. -/
def lenBytes (n : Nat) : List Nat :=
  [n / 2 ^ 56 % 256, n / 2 ^ 48 % 256, n / 2 ^ 40 % 256, n / 2 ^ 32 % 256,
   n / 2 ^ 24 % 256, n / 2 ^ 16 % 256, n / 2 ^ 8 % 256, n % 256]

/-- SHA-256 padding: `0x80`, zeros to 56 mod 64, then the bit length. -/
def sha256pad (ms : List Nat) : List Nat :=
  ms ++ 128 :: List.replicate ((64 - (ms.length + 9) % 64) % 64) 0 ++ lenBytes (8 * ms.length)

/-- Split into 64-byte blocks (the fuel is an upper bound on the block count). -/
def chunks64 : Nat → List Nat → List (List Nat)
  | 0, _ => []
  | _+1, [] => []
  | fuel+1, b :: bs => List.take 64 (b :: bs) :: chunks64 fuel (List.drop 64 (b :: bs))

/-- SHA-256 initial state (decimal). -/
def sha256init : H8 :=
  ⟨1779033703, 3144134277, 1013904242, 2773480762,
   1359893119, 2600822924, 528734635, 1541459225⟩

/-- Big-endian bytes of one 32-bit word. -/
def wordBytes (w : Nat) : List Nat :=
  [w / 16777216 % 256, w / 65536 % 256, w / 256 % 256, w % 256]

/-- The 32-byte SHA-256 digest of a byte string. -/
def sha256bytes (ms : List Nat) : List Nat :=
  let padded := sha256pad ms
  let fin := (chunks64 padded.length padded).foldl compress sha256init
  wordBytes fin.a ++ wordBytes fin.b ++ wordBytes fin.c ++ wordBytes fin.d
    ++ wordBytes fin.e ++ wordBytes fin.f ++ wordBytes fin.g ++ wordBytes fin.h

/-- The sixteen lowercase hexadecimal digits. -/
def hexChars : List Char := "0123456789abcdef".toList

/-- One hexadecimal digit. -/
def hexDigit (n : Nat) : Char := hexChars.getD n '0'

/-- Two lowercase hex digits of one byte (`hexdigest` formatting). -/
def byteHex (b : Nat) : List Char := [hexDigit (b / 16 % 16), hexDigit (b % 16)]

/-- `hashlib.sha256(data).hexdigest()`. -/
def sha256hex (ms : List Nat) : List Char := (sha256bytes ms).flatMap byteHex

/-- Observable outcome of one run of `generate-token.py`: exit status and
the content written to `piid.txt` (if any). -/
structure TokenRun where
  exitCode : Nat
  written : Option (List Char)
deriving DecidableEq

/-- `generate_token_hash()` as a function of the operator's input line:
strip it; an empty token exits 1 without writing; otherwise the SHA-256
hex digest of its UTF-8 encoding is written to `piid.txt`. -/
def generate_token_hash (inputLine : List Char) : TokenRun :=
  let token := pythonStrip inputLine
  if token = [] then ⟨1, none⟩
  else ⟨0, some (sha256hex (utf8Encode token))⟩

/-!
Helper lemmas.  The canonical reference tags below are the concrete
forms the script is built to rewrite (the Alpine tag of the literal
template of §8 of the spec, and the plain Tailwind CDN tag).
-/

/-- The canonical Alpine external-reference tag. -/
def alpineTagL : List Char :=
  "<script src=\"https://unpkg.com/alpinejs@3.x.x/dist/cdn.min.js\" defer></script>".toList

/-- The canonical Tailwind external-reference tag. -/
def tailwindTagL : List Char := "<script src=\"https://cdn.tailwindcss.com\"></script>".toList

/-- The closing body boundary. -/
def bodyCloseL : List Char := "</body>".toList

/-- Opening part of `tailwind_replacement`. -/
def twOpenL : List Char := "<script>\n".toList

/-- Closing part of `tailwind_replacement`. -/
def twCloseL : List Char := "\n</script>".toList

/-- Opening part of `body_replacement`. -/
def nlOpenL : List Char := "\n<script>\n".toList

/-- Closing part of `body_replacement` (inline close plus the re-emitted boundary). -/
def nlCloseBodyL : List Char := "\n</script>\n</body>".toList

/-- All four patterns of the script start with a literal whose first
character is `<`. -/
def startsLt (pat : List Atom) : Prop :=
  ∃ l pa, pat = Atom.lit ('<' :: l) :: pa

/-- A template of the canonical splice shape: filler text around one
Alpine reference tag, one Tailwind reference tag and one closing body
boundary. -/
def canonicalT (p q r s : List Char) : List Char :=
  p ++ (alpineTagL ++ (q ++ (tailwindTagL ++ (r ++ (bodyCloseL ++ s)))))

/-- The assembled form of a canonical template: the Alpine tag is gone,
the Tailwind tag is replaced in place by its inline block, and the Alpine
payload sits in an inline block just before the closing body boundary. -/
def assembledNF (alpine_js tailwind_js p q r s : List Char) : List Char :=
  p ++ (q ++ (twOpenL ++ (tailwind_js ++ (twCloseL
    ++ (r ++ (nlOpenL ++ (alpine_js ++ (nlCloseBodyL ++ s))))))))

/-- A template on which removing the leftmost Alpine tag re-forms a full
Alpine reference tag from the surrounding text: a tag missing only its
`</script>` suffix, then a complete tag, then the dangling `</script>`,
then a Tailwind tag and a closing body boundary. -/
def reformTemplate : List Char :=
  ("<script src=\"https://unpkg.com/alpinejs@3.x.x/dist/cdn.min.js\" defer>"
    ++ "<script src=\"https://unpkg.com/alpinejs@3.x.x/dist/cdn.min.js\" defer></script>"
    ++ "</script><script src=\"https://cdn.tailwindcss.com\"></script></body>").toList

/-- A template on which the two substitution orders disagree: a Tailwind
tag missing only its `</script>` suffix, then a complete Alpine tag, then
the dangling `</script>`.  Removing the Alpine tag first creates a
Tailwind match that the swapped order never sees. -/
def orderTemplate : List Char :=
  ("<script src=\"https://cdn.tailwindcss.com\">"
    ++ "<script src=\"https://unpkg.com/alpinejs@3.x.x/dist/cdn.min.js\" defer></script>"
    ++ "</script>").toList

theorem tailwind_replacement_parts (tailwind_js : List Char) :
    tailwind_replacement tailwind_js = twOpenL ++ (tailwind_js ++ twCloseL) := by
  simp [tailwind_replacement, twOpenL, twCloseL]

theorem body_replacement_parts (alpine_js : List Char) :
    body_replacement alpine_js = nlOpenL ++ (alpine_js ++ nlCloseBodyL) := by
  have h : "\n</script>\n".toList ++ "</body>".toList = nlCloseBodyL := rfl
  simp only [body_replacement, alpine_replacement, nlOpenL, List.append_assoc, h]

theorem lowerC_lt_self : lowerC '<' = '<' := rfl

theorem lowEq_lt_false (c : Char) (hc : c ≠ '<') : lowEq '<' c = false := by
  have hl : lowerC c ≠ '<' := by
    unfold lowerC
    by_cases hu : 65 ≤ c.toNat ∧ c.toNat ≤ 90
    · rw [if_pos hu]
      obtain ⟨h1, h2⟩ := hu
      generalize c.toNat = n at h1 h2 ⊢
      interval_cases n <;> decide
    · rw [if_neg hu]; exact hc
  unfold lowEq
  rw [lowerC_lt_self]
  exact beq_eq_false_iff_ne.mpr (fun h => hl h.symm)

theorem alpine_startsLt : startsLt alpine_pattern := ⟨_, _, rfl⟩

theorem tailwind_startsLt : startsLt tailwind_pattern := ⟨_, _, rfl⟩

theorem comment_startsLt : startsLt alpine_comment_pattern := ⟨_, _, rfl⟩

theorem body_startsLt : startsLt body_pattern := ⟨_, _, rfl⟩

theorem matchAtoms_lit (l : List Char) (pa : List Atom) (s : List Char) :
    matchAtoms (Atom.lit l :: pa) s
      = if isPrefixCI l s then (matchAtoms pa (List.drop l.length s)).map (fun n => n + l.length)
        else none := rfl

/-- At a character other than `<`, none of the script's patterns can match. -/
theorem matchAtoms_nolt (pat : List Atom) (hp : startsLt pat) (c : Char) (s : List Char)
    (hc : c ≠ '<') : matchAtoms pat (c :: s) = none := by
  obtain ⟨l, pa, rfl⟩ := hp
  rw [matchAtoms_lit]
  rw [show isPrefixCI ('<' :: l) (c :: s) = (lowEq '<' c && isPrefixCI l s) from rfl,
    lowEq_lt_false c hc, Bool.false_and]
  rfl

theorem subAll_cons_none (pat : List Atom) (repl : List Char) (c : Char) (s : List Char)
    (h : matchAtoms pat (c :: s) = none) :
    subAllAux pat repl 0 (c :: s) = c :: subAllAux pat repl 0 s := by
  show (match matchAtoms pat (c :: s) with
    | some (n+1) => repl ++ subAllAux pat repl n s
    | _ => c :: subAllAux pat repl 0 s) = c :: subAllAux pat repl 0 s
  rw [h]

/-- `re.sub` copies a `<`-free prefix verbatim for any of the script's patterns. -/
theorem subAll_skip_nolt (pat : List Atom) (hp : startsLt pat) (repl : List Char)
    (u v : List Char) (hu : '<' ∉ u) :
    subAllAux pat repl 0 (u ++ v) = u ++ subAllAux pat repl 0 v := by
  induction u with
  | nil => rfl
  | cons c u ih =>
    have hc : c ≠ '<' := fun h => hu (h ▸ List.mem_cons_self c u)
    have hu2 : '<' ∉ u := fun h => hu (List.mem_cons_of_mem c h)
    rw [List.cons_append, subAll_cons_none pat repl c (u ++ v) (matchAtoms_nolt pat hp c _ hc),
      ih hu2, List.cons_append]

/-- `re.sub` leaves a `<`-free document unchanged for any of the script's patterns. -/
theorem subAll_nolt_id (pat : List Atom) (hp : startsLt pat) (repl : List Char)
    (s : List Char) (hs : '<' ∉ s) :
    subAllAux pat repl 0 s = s := by
  have h := subAll_skip_nolt pat hp repl s [] hs
  simpa [show subAllAux pat repl 0 [] = ([] : List Char) from rfl] using h

/-- When no position of `s` starts a match, `re.sub` is the identity. -/
theorem subAll_id_of_no_match (pat : List Atom) (repl : List Char) (s : List Char)
    (h : hasMatch pat s = false) :
    subAllAux pat repl 0 s = s := by
  induction s with
  | nil => rfl
  | cons c s ih =>
    rw [show hasMatch pat (c :: s)
        = ((matchAtoms pat (c :: s)).isSome || hasMatch pat s) from rfl] at h
    rcases Bool.or_eq_false_iff.mp h with ⟨h1, h2⟩
    rw [subAll_cons_none pat repl c s (Option.not_isSome_iff_eq_none.mp (by simp [h1])),
      ih h2]

theorem hasMatch_cons_eq (pat : List Atom) (c : Char) (s : List Char) :
    hasMatch pat (c :: s) = ((matchAtoms pat (c :: s)).isSome || hasMatch pat s) := rfl

/-- A `<`-free prefix contributes no match position. -/
theorem hasMatch_skip_nolt (pat : List Atom) (hp : startsLt pat)
    (u v : List Char) (hu : '<' ∉ u) :
    hasMatch pat (u ++ v) = hasMatch pat v := by
  induction u with
  | nil => rfl
  | cons c u ih =>
    have hc : c ≠ '<' := fun h => hu (h ▸ List.mem_cons_self c u)
    have hu2 : '<' ∉ u := fun h => hu (List.mem_cons_of_mem c h)
    rw [List.cons_append, hasMatch_cons_eq, matchAtoms_nolt pat hp c _ hc, ih hu2]
    rfl

/-- A `<`-free document has no match of any of the script's patterns. -/
theorem hasMatch_nolt_false (pat : List Atom) (hp : startsLt pat)
    (s : List Char) (hs : '<' ∉ s) :
    hasMatch pat s = false := by
  have h := hasMatch_skip_nolt pat hp s [] hs
  simpa [show hasMatch pat [] = false from rfl] using h

/-!
Definitional evaluation lemmas: how each `re.sub` pass of the script
acts on the concrete reference tags and on the fixed fragments of the
inline replacements, with an arbitrary rest of the document.  Each is
proved by computation (the backtracking match is decided entirely
inside the concrete segment, so the tail can stay symbolic).
-/

theorem alpine_step_AT (repl v : List Char) :
    subAllAux alpine_pattern repl 0 (alpineTagL ++ v)
      = repl ++ subAllAux alpine_pattern repl 0 v := rfl

theorem alpine_walk_TT (repl v : List Char) :
    subAllAux alpine_pattern repl 0 (tailwindTagL ++ v)
      = tailwindTagL ++ subAllAux alpine_pattern repl 0 v := rfl

theorem alpine_walk_BD (repl v : List Char) :
    subAllAux alpine_pattern repl 0 (bodyCloseL ++ v)
      = bodyCloseL ++ subAllAux alpine_pattern repl 0 v := rfl

theorem alpine_walk_twOpen (repl v : List Char) :
    subAllAux alpine_pattern repl 0 (twOpenL ++ v)
      = twOpenL ++ subAllAux alpine_pattern repl 0 v := rfl

theorem alpine_walk_twClose (repl v : List Char) :
    subAllAux alpine_pattern repl 0 (twCloseL ++ v)
      = twCloseL ++ subAllAux alpine_pattern repl 0 v := rfl

theorem comment_walk_TT (repl v : List Char) :
    subAllAux alpine_comment_pattern repl 0 (tailwindTagL ++ v)
      = tailwindTagL ++ subAllAux alpine_comment_pattern repl 0 v := rfl

theorem comment_walk_BD (repl v : List Char) :
    subAllAux alpine_comment_pattern repl 0 (bodyCloseL ++ v)
      = bodyCloseL ++ subAllAux alpine_comment_pattern repl 0 v := rfl

theorem comment_walk_twOpen (repl v : List Char) :
    subAllAux alpine_comment_pattern repl 0 (twOpenL ++ v)
      = twOpenL ++ subAllAux alpine_comment_pattern repl 0 v := rfl

theorem comment_walk_twClose (repl v : List Char) :
    subAllAux alpine_comment_pattern repl 0 (twCloseL ++ v)
      = twCloseL ++ subAllAux alpine_comment_pattern repl 0 v := rfl

theorem body_walk_TT (repl v : List Char) :
    subAllAux body_pattern repl 0 (tailwindTagL ++ v)
      = tailwindTagL ++ subAllAux body_pattern repl 0 v := rfl

theorem body_step_BD (repl v : List Char) :
    subAllAux body_pattern repl 0 (bodyCloseL ++ v)
      = repl ++ subAllAux body_pattern repl 0 v := rfl

theorem body_walk_twOpen (repl v : List Char) :
    subAllAux body_pattern repl 0 (twOpenL ++ v)
      = twOpenL ++ subAllAux body_pattern repl 0 v := rfl

theorem body_walk_twClose (repl v : List Char) :
    subAllAux body_pattern repl 0 (twCloseL ++ v)
      = twCloseL ++ subAllAux body_pattern repl 0 v := rfl

theorem tailwind_walk_AT (repl v : List Char) :
    subAllAux tailwind_pattern repl 0 (alpineTagL ++ v)
      = alpineTagL ++ subAllAux tailwind_pattern repl 0 v := rfl

theorem tailwind_step_TT (repl v : List Char) :
    subAllAux tailwind_pattern repl 0 (tailwindTagL ++ v)
      = repl ++ subAllAux tailwind_pattern repl 0 v := rfl

theorem tailwind_walk_BD (repl v : List Char) :
    subAllAux tailwind_pattern repl 0 (bodyCloseL ++ v)
      = bodyCloseL ++ subAllAux tailwind_pattern repl 0 v := rfl

theorem tailwind_walk_nlOpen (repl v : List Char) :
    subAllAux tailwind_pattern repl 0 (nlOpenL ++ v)
      = nlOpenL ++ subAllAux tailwind_pattern repl 0 v := rfl

theorem tailwind_walk_nlCloseBody (repl v : List Char) :
    subAllAux tailwind_pattern repl 0 (nlCloseBodyL ++ v)
      = nlCloseBodyL ++ subAllAux tailwind_pattern repl 0 v := rfl

theorem hm_alpine_AT (v : List Char) :
    hasMatch alpine_pattern (alpineTagL ++ v) = true := rfl

theorem hm_tailwind_walk_AT (v : List Char) :
    hasMatch tailwind_pattern (alpineTagL ++ v) = hasMatch tailwind_pattern v := rfl

theorem hm_tailwind_TT (v : List Char) :
    hasMatch tailwind_pattern (tailwindTagL ++ v) = true := rfl

theorem hm_body_walk_AT (v : List Char) :
    hasMatch body_pattern (alpineTagL ++ v) = hasMatch body_pattern v := rfl

theorem hm_body_walk_TT (v : List Char) :
    hasMatch body_pattern (tailwindTagL ++ v) = hasMatch body_pattern v := rfl

theorem hm_body_BD (v : List Char) :
    hasMatch body_pattern (bodyCloseL ++ v) = true := rfl

theorem hm_alpine_walk_twOpen (v : List Char) :
    hasMatch alpine_pattern (twOpenL ++ v) = hasMatch alpine_pattern v := rfl

theorem hm_alpine_walk_twClose (v : List Char) :
    hasMatch alpine_pattern (twCloseL ++ v) = hasMatch alpine_pattern v := rfl

theorem hm_alpine_walk_nlOpen (v : List Char) :
    hasMatch alpine_pattern (nlOpenL ++ v) = hasMatch alpine_pattern v := rfl

theorem hm_alpine_walk_nlCloseBody (v : List Char) :
    hasMatch alpine_pattern (nlCloseBodyL ++ v) = hasMatch alpine_pattern v := rfl

theorem hm_tailwind_walk_twOpen (v : List Char) :
    hasMatch tailwind_pattern (twOpenL ++ v) = hasMatch tailwind_pattern v := rfl

theorem hm_tailwind_walk_twClose (v : List Char) :
    hasMatch tailwind_pattern (twCloseL ++ v) = hasMatch tailwind_pattern v := rfl

theorem hm_tailwind_walk_nlOpen (v : List Char) :
    hasMatch tailwind_pattern (nlOpenL ++ v) = hasMatch tailwind_pattern v := rfl

theorem hm_tailwind_walk_nlCloseBody (v : List Char) :
    hasMatch tailwind_pattern (nlCloseBodyL ++ v) = hasMatch tailwind_pattern v := rfl

theorem assemble_canonical (alpine_js tailwind_js p q r s : List Char)
    (hp : '<' ∉ p) (hq : '<' ∉ q) (hr : '<' ∉ r) (hs : '<' ∉ s)
    (hB : '<' ∉ alpine_js) :
    assemble alpine_js tailwind_js (canonicalT p q r s)
      = assembledNF alpine_js tailwind_js p q r s := by
  have e1 : subAll alpine_pattern [] (canonicalT p q r s)
      = p ++ (q ++ (tailwindTagL ++ (r ++ (bodyCloseL ++ s)))) := by
    unfold canonicalT subAll
    rw [subAll_skip_nolt _ alpine_startsLt _ p _ hp, alpine_step_AT]
    simp only [List.nil_append]
    rw [subAll_skip_nolt _ alpine_startsLt _ q _ hq, alpine_walk_TT,
      subAll_skip_nolt _ alpine_startsLt _ r _ hr, alpine_walk_BD,
      subAll_nolt_id _ alpine_startsLt _ s hs]
  have e2 : subAll alpine_comment_pattern [] (p ++ (q ++ (tailwindTagL ++ (r ++ (bodyCloseL ++ s)))))
      = p ++ (q ++ (tailwindTagL ++ (r ++ (bodyCloseL ++ s)))) := by
    unfold subAll
    rw [subAll_skip_nolt _ comment_startsLt _ p _ hp,
      subAll_skip_nolt _ comment_startsLt _ q _ hq, comment_walk_TT,
      subAll_skip_nolt _ comment_startsLt _ r _ hr, comment_walk_BD,
      subAll_nolt_id _ comment_startsLt _ s hs]
  have e3 : subAll body_pattern (body_replacement alpine_js)
        (p ++ (q ++ (tailwindTagL ++ (r ++ (bodyCloseL ++ s)))))
      = p ++ (q ++ (tailwindTagL ++ (r ++ (body_replacement alpine_js ++ s)))) := by
    unfold subAll
    rw [subAll_skip_nolt _ body_startsLt _ p _ hp,
      subAll_skip_nolt _ body_startsLt _ q _ hq, body_walk_TT,
      subAll_skip_nolt _ body_startsLt _ r _ hr, body_step_BD,
      subAll_nolt_id _ body_startsLt _ s hs]
  have e4 : subAll tailwind_pattern (tailwind_replacement tailwind_js)
        (p ++ (q ++ (tailwindTagL ++ (r ++ (body_replacement alpine_js ++ s)))))
      = assembledNF alpine_js tailwind_js p q r s := by
    unfold subAll
    rw [subAll_skip_nolt _ tailwind_startsLt _ p _ hp,
      subAll_skip_nolt _ tailwind_startsLt _ q _ hq, tailwind_step_TT,
      subAll_skip_nolt _ tailwind_startsLt _ r _ hr, body_replacement_parts]
    simp only [List.append_assoc]
    rw [tailwind_walk_nlOpen, subAll_skip_nolt _ tailwind_startsLt _ alpine_js _ hB,
      tailwind_walk_nlCloseBody, subAll_nolt_id _ tailwind_startsLt _ s hs]
    simp [assembledNF, tailwind_replacement_parts, List.append_assoc]
  show subAll tailwind_pattern (tailwind_replacement tailwind_js)
    (subAll body_pattern (body_replacement alpine_js)
      (subAll alpine_comment_pattern [] (subAll alpine_pattern [] (canonicalT p q r s))))
    = assembledNF alpine_js tailwind_js p q r s
  rw [e1, e2, e3, e4]

theorem assembleSwapped_canonical (alpine_js tailwind_js p q r s : List Char)
    (hp : '<' ∉ p) (hq : '<' ∉ q) (hr : '<' ∉ r) (hs : '<' ∉ s)
    (hA : '<' ∉ tailwind_js) :
    assembleSwapped alpine_js tailwind_js (canonicalT p q r s)
      = assembledNF alpine_js tailwind_js p q r s := by
  have f4 : subAll tailwind_pattern (tailwind_replacement tailwind_js) (canonicalT p q r s)
      = p ++ (alpineTagL ++ (q ++ (twOpenL ++ (tailwind_js ++ (twCloseL
          ++ (r ++ (bodyCloseL ++ s))))))) := by
    unfold canonicalT subAll
    rw [subAll_skip_nolt _ tailwind_startsLt _ p _ hp, tailwind_walk_AT,
      subAll_skip_nolt _ tailwind_startsLt _ q _ hq, tailwind_step_TT,
      subAll_skip_nolt _ tailwind_startsLt _ r _ hr, tailwind_walk_BD,
      subAll_nolt_id _ tailwind_startsLt _ s hs]
    simp [tailwind_replacement_parts, List.append_assoc]
  have f1 : subAll alpine_pattern []
        (p ++ (alpineTagL ++ (q ++ (twOpenL ++ (tailwind_js ++ (twCloseL
          ++ (r ++ (bodyCloseL ++ s))))))))
      = p ++ (q ++ (twOpenL ++ (tailwind_js ++ (twCloseL ++ (r ++ (bodyCloseL ++ s)))))) := by
    unfold subAll
    rw [subAll_skip_nolt _ alpine_startsLt _ p _ hp, alpine_step_AT]
    simp only [List.nil_append]
    rw [subAll_skip_nolt _ alpine_startsLt _ q _ hq, alpine_walk_twOpen,
      subAll_skip_nolt _ alpine_startsLt _ tailwind_js _ hA, alpine_walk_twClose,
      subAll_skip_nolt _ alpine_startsLt _ r _ hr, alpine_walk_BD,
      subAll_nolt_id _ alpine_startsLt _ s hs]
  have f2 : subAll alpine_comment_pattern []
        (p ++ (q ++ (twOpenL ++ (tailwind_js ++ (twCloseL ++ (r ++ (bodyCloseL ++ s)))))))
      = p ++ (q ++ (twOpenL ++ (tailwind_js ++ (twCloseL ++ (r ++ (bodyCloseL ++ s)))))) := by
    unfold subAll
    rw [subAll_skip_nolt _ comment_startsLt _ p _ hp,
      subAll_skip_nolt _ comment_startsLt _ q _ hq, comment_walk_twOpen,
      subAll_skip_nolt _ comment_startsLt _ tailwind_js _ hA, comment_walk_twClose,
      subAll_skip_nolt _ comment_startsLt _ r _ hr, comment_walk_BD,
      subAll_nolt_id _ comment_startsLt _ s hs]
  have f3 : subAll body_pattern (body_replacement alpine_js)
        (p ++ (q ++ (twOpenL ++ (tailwind_js ++ (twCloseL ++ (r ++ (bodyCloseL ++ s)))))))
      = assembledNF alpine_js tailwind_js p q r s := by
    unfold subAll
    rw [subAll_skip_nolt _ body_startsLt _ p _ hp,
      subAll_skip_nolt _ body_startsLt _ q _ hq, body_walk_twOpen,
      subAll_skip_nolt _ body_startsLt _ tailwind_js _ hA, body_walk_twClose,
      subAll_skip_nolt _ body_startsLt _ r _ hr, body_step_BD,
      subAll_nolt_id _ body_startsLt _ s hs]
    simp [assembledNF, body_replacement_parts, List.append_assoc]
  show subAll body_pattern (body_replacement alpine_js)
    (subAll alpine_comment_pattern []
      (subAll alpine_pattern []
        (subAll tailwind_pattern (tailwind_replacement tailwind_js) (canonicalT p q r s))))
    = assembledNF alpine_js tailwind_js p q r s
  rw [f4, f1, f2, f3]

theorem hasMatch_alpine_NF_false (alpine_js tailwind_js p q r s : List Char)
    (hp : '<' ∉ p) (hq : '<' ∉ q) (hr : '<' ∉ r) (hs : '<' ∉ s)
    (hA : '<' ∉ tailwind_js) (hB : '<' ∉ alpine_js) :
    hasMatch alpine_pattern (assembledNF alpine_js tailwind_js p q r s) = false := by
  unfold assembledNF
  rw [hasMatch_skip_nolt _ alpine_startsLt p _ hp,
    hasMatch_skip_nolt _ alpine_startsLt q _ hq, hm_alpine_walk_twOpen,
    hasMatch_skip_nolt _ alpine_startsLt tailwind_js _ hA, hm_alpine_walk_twClose,
    hasMatch_skip_nolt _ alpine_startsLt r _ hr, hm_alpine_walk_nlOpen,
    hasMatch_skip_nolt _ alpine_startsLt alpine_js _ hB, hm_alpine_walk_nlCloseBody,
    hasMatch_nolt_false _ alpine_startsLt s hs]

theorem hasMatch_tailwind_NF_false (alpine_js tailwind_js p q r s : List Char)
    (hp : '<' ∉ p) (hq : '<' ∉ q) (hr : '<' ∉ r) (hs : '<' ∉ s)
    (hA : '<' ∉ tailwind_js) (hB : '<' ∉ alpine_js) :
    hasMatch tailwind_pattern (assembledNF alpine_js tailwind_js p q r s) = false := by
  unfold assembledNF
  rw [hasMatch_skip_nolt _ tailwind_startsLt p _ hp,
    hasMatch_skip_nolt _ tailwind_startsLt q _ hq, hm_tailwind_walk_twOpen,
    hasMatch_skip_nolt _ tailwind_startsLt tailwind_js _ hA, hm_tailwind_walk_twClose,
    hasMatch_skip_nolt _ tailwind_startsLt r _ hr, hm_tailwind_walk_nlOpen,
    hasMatch_skip_nolt _ tailwind_startsLt alpine_js _ hB, hm_tailwind_walk_nlCloseBody,
    hasMatch_nolt_false _ tailwind_startsLt s hs]

theorem hasMatch_alpine_canonical (p q r s : List Char) (hp : '<' ∉ p) :
    hasMatch alpine_pattern (canonicalT p q r s) = true := by
  unfold canonicalT
  rw [hasMatch_skip_nolt _ alpine_startsLt p _ hp, hm_alpine_AT]

theorem hasMatch_tailwind_canonical (p q r s : List Char) (hp : '<' ∉ p) (hq : '<' ∉ q) :
    hasMatch tailwind_pattern (canonicalT p q r s) = true := by
  unfold canonicalT
  rw [hasMatch_skip_nolt _ tailwind_startsLt p _ hp, hm_tailwind_walk_AT,
    hasMatch_skip_nolt _ tailwind_startsLt q _ hq, hm_tailwind_TT]

theorem hasMatch_body_canonical (p q r s : List Char)
    (hp : '<' ∉ p) (hq : '<' ∉ q) (hr : '<' ∉ r) :
    hasMatch body_pattern (canonicalT p q r s) = true := by
  unfold canonicalT
  rw [hasMatch_skip_nolt _ body_startsLt p _ hp, hm_body_walk_AT,
    hasMatch_skip_nolt _ body_startsLt q _ hq, hm_body_walk_TT,
    hasMatch_skip_nolt _ body_startsLt r _ hr, hm_body_BD]

/-!  Characterisation of the lazy declaration scan used for the provenance block. -/

theorem declAt_nil_false (i : Nat) : declAt [] i = false := by
  unfold declAt
  rw [List.drop_nil]
  rfl

theorem findDecl_none (s : List Char) (h : ∀ i, declAt s i = false) : findDecl s = none := by
  induction s with
  | nil => rfl
  | cons c s ih =>
    have h0 : (isPrefixCI ('<' :: "!DOCTYPE".toList) (c :: s)
        || isPrefixCI ('<' :: "html".toList) (c :: s)) = false := h 0
    unfold findDecl
    rw [h0]
    simp [ih fun i => h (i+1)]

theorem findDecl_found (s : List Char) : ∀ (i : Nat), declAt s i = true
    → (∀ j, j < i → declAt s j = false)
    → findDecl s = some (List.take i s, List.drop i s) := by
  induction s with
  | nil =>
    intro i hi _
    rw [declAt_nil_false] at hi
    cases hi
  | cons c s ih =>
    intro i hi hmin
    match i with
    | 0 =>
      have h0 : (isPrefixCI ('<' :: "!DOCTYPE".toList) (c :: s)
          || isPrefixCI ('<' :: "html".toList) (c :: s)) = true := hi
      unfold findDecl
      rw [h0]
      rfl
    | i+1 =>
      have h0 : (isPrefixCI ('<' :: "!DOCTYPE".toList) (c :: s)
          || isPrefixCI ('<' :: "html".toList) (c :: s)) = false := hmin 0 (Nat.succ_pos i)
      unfold findDecl
      rw [h0]
      simp only [Bool.false_eq_true, if_false]
      rw [ih i hi (fun j hj => hmin (j+1) (Nat.succ_lt_succ hj))]
      rfl

/-!  Shape of the SHA-256 hex digest. -/

theorem sha256bytes_length (ms : List Nat) : (sha256bytes ms).length = 32 := by
  simp [sha256bytes, wordBytes]

theorem flatMap_byteHex_length (bs : List Nat) : (bs.flatMap byteHex).length = 2 * bs.length := by
  induction bs with
  | nil => rfl
  | cons b bs ih =>
    simp only [List.flatMap_cons, List.length_append, ih, byteHex, List.length_cons,
      List.length_nil]
    omega

theorem sha256hex_length (ms : List Nat) : (sha256hex ms).length = 64 := by
  unfold sha256hex
  rw [flatMap_byteHex_length, sha256bytes_length]

theorem hexDigit_mem (n : Nat) : hexDigit n ∈ hexChars := by
  by_cases h : n < 16
  · interval_cases n <;> decide
  · unfold hexDigit
    rw [List.getD_eq_default]
    · decide
    · rw [show hexChars.length = 16 from rfl]
      omega

theorem sha256hex_mem (ms : List Nat) (c : Char) (hc : c ∈ sha256hex ms) : c ∈ hexChars := by
  unfold sha256hex at hc
  rw [List.mem_flatMap] at hc
  obtain ⟨b, _, hb⟩ := hc
  unfold byteHex at hb
  simp only [List.mem_cons, List.not_mem_nil, or_false] at hb
  rcases hb with hb | hb <;> (subst hb; exact hexDigit_mem _)

/-!  Claim theorems. -/

set_option maxRecDepth 40000 in
/-- C1 (counterexample): a template satisfying all three hypotheses of the
claim — it contains an Alpine reference match, a Tailwind reference match
and a closing `</body>` — whose assembled output still contains a full
match of the Alpine external-reference pattern: removing the leftmost
match splices the surrounding text into a new complete tag, so the
claimed "zero occurrences" conclusion fails. -/
theorem C1_counterexample :
    hasMatch alpine_pattern reformTemplate = true
    ∧ hasMatch tailwind_pattern reformTemplate = true
    ∧ hasMatch body_pattern reformTemplate = true
    ∧ hasMatch alpine_pattern (assemble ['A'] ['T'] reformTemplate) = true :=
  ⟨rfl, rfl, rfl, rfl⟩

/-- C1 (amended): for templates of the canonical splice shape — filler
text with no `<` around one canonical Alpine tag, one canonical Tailwind
tag and one `</body>`, with payloads free of `<` — the template satisfies
the claim's hypotheses, and the assembled output contains zero matches of
either external-reference pattern and both payload texts verbatim inline
(payload B in the block inserted before `</body>`, payload A in the block
replacing its tag in place). -/
theorem C1_amended (alpine_js tailwind_js p q r s t : List Char)
    (hp : '<' ∉ p) (hq : '<' ∉ q) (hr : '<' ∉ r) (hs : '<' ∉ s)
    (hA : '<' ∉ tailwind_js) (hB : '<' ∉ alpine_js)
    (ht : t = canonicalT p q r s) :
    hasMatch alpine_pattern t = true
    ∧ hasMatch tailwind_pattern t = true
    ∧ hasMatch body_pattern t = true
    ∧ assemble alpine_js tailwind_js t = assembledNF alpine_js tailwind_js p q r s
    ∧ hasMatch alpine_pattern (assemble alpine_js tailwind_js t) = false
    ∧ hasMatch tailwind_pattern (assemble alpine_js tailwind_js t) = false
    ∧ alpine_js <:+: assemble alpine_js tailwind_js t
    ∧ tailwind_js <:+: assemble alpine_js tailwind_js t := by
  subst ht
  have hass := assemble_canonical alpine_js tailwind_js p q r s hp hq hr hs hB
  refine ⟨hasMatch_alpine_canonical p q r s hp,
    hasMatch_tailwind_canonical p q r s hp hq,
    hasMatch_body_canonical p q r s hp hq hr, hass, ?_, ?_, ?_, ?_⟩
  · rw [hass]
    exact hasMatch_alpine_NF_false alpine_js tailwind_js p q r s hp hq hr hs hA hB
  · rw [hass]
    exact hasMatch_tailwind_NF_false alpine_js tailwind_js p q r s hp hq hr hs hA hB
  · rw [hass]
    refine ⟨p ++ (q ++ (twOpenL ++ (tailwind_js ++ (twCloseL ++ (r ++ nlOpenL))))),
      nlCloseBodyL ++ s, ?_⟩
    simp [assembledNF, List.append_assoc]
  · rw [hass]
    refine ⟨p ++ (q ++ twOpenL),
      twCloseL ++ (r ++ (nlOpenL ++ (alpine_js ++ (nlCloseBodyL ++ s)))), ?_⟩
    simp [assembledNF, List.append_assoc]

/-- C1 (witness): the amended statement instantiated at concrete fillers
and payloads. -/
theorem C1_witness :
    hasMatch alpine_pattern
        (assemble "PB".toList "PT".toList
          (canonicalT "h".toList "i".toList "j".toList "k".toList)) = false
    ∧ "PB".toList <:+:
        assemble "PB".toList "PT".toList
          (canonicalT "h".toList "i".toList "j".toList "k".toList) := by
  have h := C1_amended "PB".toList "PT".toList "h".toList "i".toList "j".toList "k".toList
    (canonicalT "h".toList "i".toList "j".toList "k".toList)
    (by decide) (by decide) (by decide) (by decide) (by decide) (by decide) rfl
  exact ⟨h.2.2.2.2.1, h.2.2.2.2.2.2.1⟩

/-- C2: on the literal template of the claim with payload B text
`console.log(1)`, the Alpine-only part of the transform (tag removal,
comment removal, `</body>` insertion — no provenance block, no payload-A
substitution) produces exactly the claimed output; moreover the payload-A
substitution step is vacuous on this template, so the full four-step
transform produces the same output for every payload A. -/
theorem C2_literal_template (tailwind_js : List Char) :
    assembleAlpineOnly "console.log(1)".toList
        "<html><head><script src=\"https://unpkg.com/alpinejs@3.x.x/dist/cdn.min.js\" defer></script></head><body></body></html>".toList
      = "<html><head></head><body>\n<script>\nconsole.log(1)\n</script>\n</body></html>".toList
    ∧ assemble "console.log(1)".toList tailwind_js
        "<html><head><script src=\"https://unpkg.com/alpinejs@3.x.x/dist/cdn.min.js\" defer></script></head><body></body></html>".toList
      = "<html><head></head><body>\n<script>\nconsole.log(1)\n</script>\n</body></html>".toList := by
  constructor
  · rfl
  · calc assemble "console.log(1)".toList tailwind_js
          "<html><head><script src=\"https://unpkg.com/alpinejs@3.x.x/dist/cdn.min.js\" defer></script></head><body></body></html>".toList
        = subAll tailwind_pattern (tailwind_replacement tailwind_js)
            "<html><head></head><body>\n<script>\nconsole.log(1)\n</script>\n</body></html>".toList := rfl
      _ = "<html><head></head><body>\n<script>\nconsole.log(1)\n</script>\n</body></html>".toList :=
          subAll_id_of_no_match _ _ _ rfl

/-- C3: a transport error (`URLError`, the `none` fetch outcome) makes
`download_file` return the `None` sentinel rather than raise, for every
label; and whenever either download returns the sentinel, the run exits
with status 1 before writing anything. -/
theorem C3_sentinel_and_abort (env : BuildEnv) (ts desc : List Char) :
    download_file desc none = Except.ok none
    ∧ (env.sourceExists = true → env.tailwindFetch = none → mainRun env ts = ⟨1, 1, none⟩)
    ∧ (∀ tw, env.sourceExists = true
        → download_file "Tailwind CSS".toList env.tailwindFetch = Except.ok (some tw)
        → env.alpineFetch = none → mainRun env ts = ⟨1, 2, none⟩) := by
  refine ⟨rfl, ?_, ?_⟩
  · intro hsrc htw
    unfold mainRun
    rw [hsrc, htw]
    rfl
  · intro tw hsrc htw halp
    unfold mainRun
    rw [hsrc, htw, halp]
    rfl

/-- C3 (witness): a run with an unreachable Tailwind source aborts with
status 1, one download attempted, nothing written. -/
theorem C3_witness : mainRun ⟨true, ['x'], none, none⟩ [] = ⟨1, 1, none⟩ :=
  (C3_sentinel_and_abort ⟨true, ['x'], none, none⟩ [] []).2.1 rfl rfl

/-- C4 (counterexample): an empty (zero-byte) fetched body is NOT fatal:
with both downloads returning zero bytes the run exits 0 and writes an
output file, contradicting the claim that an empty fetch terminates the
run with nonzero status and no write. -/
theorem C4_counterexample :
    (mainRun ⟨true, ['x'], some [], some []⟩ []).exitCode = 0
    ∧ (mainRun ⟨true, ['x'], some [], some []⟩ []).written ≠ none := by
  refine ⟨rfl, ?_⟩
  decide

/-- C4 (amended): a binary (non-UTF-8-decodable) body from either download
is fatal — the uncaught decode error ends the run with status 1 and no
write; an empty (zero-byte) body, however, decodes to the empty string and
the run proceeds, exiting 0 and writing output assembled with the empty
payloads. -/
theorem C4_amended (env : BuildEnv) (ts : List Char) (bs : List Nat) :
    (env.sourceExists = true → env.tailwindFetch = some bs → utf8Decode bs = none →
      mainRun env ts = ⟨1, 1, none⟩)
    ∧ (∀ tw, env.sourceExists = true
        → download_file "Tailwind CSS".toList env.tailwindFetch = Except.ok (some tw)
        → env.alpineFetch = some bs → utf8Decode bs = none → mainRun env ts = ⟨1, 2, none⟩)
    ∧ (env.sourceExists = true → env.tailwindFetch = some [] → env.alpineFetch = some [] →
        mainRun env ts = ⟨0, 2, some (insertBuildInfo (build_info ts) (assemble [] [] env.source))⟩) := by
  refine ⟨?_, ?_, ?_⟩
  · intro hsrc htw hdec
    unfold mainRun
    rw [hsrc, htw]
    rw [show download_file "Tailwind CSS".toList (some bs)
        = (match utf8Decode bs with
           | none => Except.error ()
           | some t => Except.ok (some (Payload.text t))) from rfl, hdec]
    rfl
  · intro tw hsrc htw halp hdec
    unfold mainRun
    rw [hsrc, htw, halp]
    rw [show download_file "Alpine.js".toList (some bs)
        = (match utf8Decode bs with
           | none => Except.error ()
           | some t => Except.ok (some (Payload.text t))) from rfl, hdec]
    rfl
  · intro hsrc htw halp
    unfold mainRun
    rw [hsrc, htw, halp]
    rfl

/-- C4 (witness): a single `0xFF` byte is not UTF-8, and a run fetching it
for Tailwind dies with status 1 and no write. -/
theorem C4_witness :
    utf8Decode [255] = none
    ∧ mainRun ⟨true, ['x'], some [255], some []⟩ [] = ⟨1, 1, none⟩ :=
  ⟨rfl, (C4_amended ⟨true, ['x'], some [255], some []⟩ [] [255]).1 rfl rfl rfl⟩

/-- C5: two runs of the transform on the same template and payloads with
different timestamps produce either identical outputs (no declaration
boundary, so no provenance block at all) or outputs of the form
`pre ++ timestamp ++ post` with the same `pre` and `post` — i.e. they are
byte-for-byte identical except for the embedded timestamp field. -/
theorem C5_two_run_determinism (content alpine_js tailwind_js ts1 ts2 : List Char) :
    insertBuildInfo (build_info ts1) (assemble alpine_js tailwind_js content)
      = insertBuildInfo (build_info ts2) (assemble alpine_js tailwind_js content)
    ∨ ∃ pre post,
        insertBuildInfo (build_info ts1) (assemble alpine_js tailwind_js content)
          = pre ++ (ts1 ++ post)
        ∧ insertBuildInfo (build_info ts2) (assemble alpine_js tailwind_js content)
          = pre ++ (ts2 ++ post) := by
  cases h : findDecl (assemble alpine_js tailwind_js content) with
  | none =>
    left
    unfold insertBuildInfo
    rw [h]
  | some pr =>
    right
    refine ⟨pr.1 ++ buildInfoPre, buildInfoPost ++ pr.2, ?_, ?_⟩ <;>
      · unfold insertBuildInfo
        rw [h]
        simp [build_info, List.append_assoc]

/-- C6 (counterexample): on the template `a` (no closing body boundary)
with payload B text `a`, the insertion step is the identity, yet payload
B's text does appear in the step's result (it already occurred in the
template) — so the claim's "payload B's text does not appear in the
result" conjunct is false as stated. -/
theorem C6_counterexample :
    hasMatch body_pattern ['a'] = false
    ∧ subAll body_pattern (body_replacement ['a']) ['a'] = ['a']
    ∧ ['a'] <:+: subAll body_pattern (body_replacement ['a']) ['a'] :=
  ⟨rfl, rfl, ⟨[], [], rfl⟩⟩

/-- C6 (amended): for a template with no closing body boundary the
payload-B insertion step is the identity; in particular payload B is
never added — its text appears in the step's result only if it already
appeared in the template. -/
theorem C6_amended (alpine_js t : List Char) (h : hasMatch body_pattern t = false) :
    subAll body_pattern (body_replacement alpine_js) t = t
    ∧ (¬ alpine_js <:+: t → ¬ alpine_js <:+: subAll body_pattern (body_replacement alpine_js) t) := by
  have he : subAll body_pattern (body_replacement alpine_js) t = t :=
    subAll_id_of_no_match _ _ _ h
  exact ⟨he, fun hni hin => hni (he ▸ hin)⟩

/-- C6 (witness): the amended statement at the boundary-free template `x`. -/
theorem C6_witness :
    hasMatch body_pattern ['x'] = false
    ∧ subAll body_pattern (body_replacement ['y']) ['x'] = ['x'] :=
  ⟨rfl, (C6_amended ['y'] ['x'] rfl).1⟩

/-- C7: the provenance-insertion step places the block immediately before
the first position where a root markup declaration (`<!DOCTYPE` or
`<html`, case-insensitively) starts, leaving the rest of the document
unchanged; and for a document with no such declaration the step is the
identity. -/
theorem C7_provenance_insertion (info s : List Char) :
    ((∀ i, declAt s i = false) → insertBuildInfo info s = s)
    ∧ (∀ i, declAt s i = true → (∀ j, j < i → declAt s j = false) →
        insertBuildInfo info s = List.take i s ++ info ++ List.drop i s) := by
  constructor
  · intro h
    unfold insertBuildInfo
    rw [findDecl_none s h]
  · intro i hi hmin
    unfold insertBuildInfo
    rw [findDecl_found s i hi hmin]

/-- C7 (witness): inserting into `ab<html>x`, whose first declaration
starts at position 2. -/
theorem C7_witness :
    declAt "ab<html>x".toList 2 = true
    ∧ insertBuildInfo ['I'] "ab<html>x".toList
        = List.take 2 "ab<html>x".toList ++ ['I'] ++ List.drop 2 "ab<html>x".toList :=
  ⟨by decide, (C7_provenance_insertion ['I'] "ab<html>x".toList).2 2 (by decide) (by decide)⟩

/-- C8 (counterexample): a template on which the two substitution orders
give different outputs — removing the Alpine tag first re-forms a Tailwind
tag that only the implemented order then replaces — so the two
substitutions do not commute on every template. -/
theorem C8_counterexample :
    assemble ['A'] ['T'] orderTemplate ≠ assembleSwapped ['A'] ['T'] orderTemplate := by
  decide

/-- C8 (amended): on templates of the canonical splice shape (fillers and
payloads free of `<`), performing the payload-A in-place replacement
before the payload-B relocation yields the same output as the implemented
order: the two substitutions commute there. -/
theorem C8_amended (alpine_js tailwind_js p q r s t : List Char)
    (hp : '<' ∉ p) (hq : '<' ∉ q) (hr : '<' ∉ r) (hs : '<' ∉ s)
    (hA : '<' ∉ tailwind_js) (hB : '<' ∉ alpine_js)
    (ht : t = canonicalT p q r s) :
    assemble alpine_js tailwind_js t = assembleSwapped alpine_js tailwind_js t := by
  subst ht
  rw [assemble_canonical alpine_js tailwind_js p q r s hp hq hr hs hB,
    assembleSwapped_canonical alpine_js tailwind_js p q r s hp hq hr hs hA]

/-- C8 (witness): the amended statement at concrete fillers and payloads. -/
theorem C8_witness :
    assemble "PB".toList "PT".toList
        (canonicalT "a".toList "b".toList "c".toList "d".toList)
      = assembleSwapped "PB".toList "PT".toList
        (canonicalT "a".toList "b".toList "c".toList "d".toList) :=
  C8_amended "PB".toList "PT".toList "a".toList "b".toList "c".toList "d".toList
    (canonicalT "a".toList "b".toList "c".toList "d".toList)
    (by decide) (by decide) (by decide) (by decide) (by decide) (by decide) rfl

/-- C9: when the source template does not exist the run exits with status
1, with zero downloads attempted and nothing written. -/
theorem C9_missing_template (env : BuildEnv) (ts : List Char)
    (h : env.sourceExists = false) :
    mainRun env ts = ⟨1, 0, none⟩ := by
  unfold mainRun
  rw [h]
  rfl

/-- C9 (witness): a concrete run with a missing template. -/
theorem C9_witness : mainRun ⟨false, [], some [], some []⟩ [] = ⟨1, 0, none⟩ :=
  C9_missing_template ⟨false, [], some [], some []⟩ [] rfl

/-- C10: if the operator's input is empty after stripping, the token
generator exits 1 and writes nothing; otherwise it writes exactly the
SHA-256 hex digest of the UTF-8 encoding of the stripped input — a
64-character string over the lowercase hexadecimal alphabet. -/
theorem C10_token_hash (inputLine : List Char) :
    (pythonStrip inputLine = [] → generate_token_hash inputLine = ⟨1, none⟩)
    ∧ (pythonStrip inputLine ≠ [] →
        generate_token_hash inputLine
          = ⟨0, some (sha256hex (utf8Encode (pythonStrip inputLine)))⟩
        ∧ (sha256hex (utf8Encode (pythonStrip inputLine))).length = 64
        ∧ ∀ c ∈ sha256hex (utf8Encode (pythonStrip inputLine)), c ∈ hexChars) := by
  constructor
  · intro h
    show (if pythonStrip inputLine = [] then (⟨1, none⟩ : TokenRun)
      else ⟨0, some (sha256hex (utf8Encode (pythonStrip inputLine)))⟩) = ⟨1, none⟩
    rw [if_pos h]
  · intro h
    refine ⟨?_, sha256hex_length _, fun c hc => sha256hex_mem _ c hc⟩
    show (if pythonStrip inputLine = [] then (⟨1, none⟩ : TokenRun)
      else ⟨0, some (sha256hex (utf8Encode (pythonStrip inputLine)))⟩)
      = ⟨0, some (sha256hex (utf8Encode (pythonStrip inputLine)))⟩
    rw [if_neg h]

/-- C10 (witness): the theorem at the concrete input line ` abc `. -/
theorem C10_witness :
    pythonStrip " abc ".toList ≠ []
    ∧ generate_token_hash " abc ".toList
        = ⟨0, some (sha256hex (utf8Encode (pythonStrip " abc ".toList)))⟩
    ∧ (sha256hex (utf8Encode (pythonStrip " abc ".toList))).length = 64 := by
  have h : pythonStrip " abc ".toList ≠ [] := by decide
  have h2 := (C10_token_hash " abc ".toList).2 h
  exact ⟨h, h2.1, h2.2.1⟩
